import Mathlib

/- Shallow embedding of the transaction-construction and settlement-accounting
   core of the model-marketplace service (solanaService.ts): the binary
   instruction/account codec, deterministic program-address derivation, the
   lineage-chain resolver and the cascading royalty-distribution algorithm,
   together with theorems checking the specification claims against it.

   Conventions: a byte is a `Nat` (values 0..255 in every buffer built here),
   buffers and public keys are byte lists, JS `number` amounts are `Int`
   (the service does integer-only arithmetic through `Math.floor`), and the
   external SHA-256 primitive and the ed25519 curve-membership test are
   abstract function parameters, as the service treats them as opaque
   library calls. -/

set_option maxRecDepth 8000

namespace Capstone

abbrev Bytes := List Nat

abbrev PubKey := List Nat

/-- UTF-8 bytes of a string (Buffer.from(s, 'utf8')). -/
def utf8Bytes (s : String) : Bytes :=
  s.toUTF8.toList.map (fun b => b.toNat)

/-- Node Buffer.readUInt32LE: little-endian 32-bit read; throws
    (modelled by `none`) when the buffer is shorter than offset+4. -/
def readUInt32LE (b : Bytes) (off : Nat) : Option Nat :=
  if off + 4 ≤ b.length then
    some (b.getD off 0 + 256 * b.getD (off + 1) 0 + 65536 * b.getD (off + 2) 0
      + 16777216 * b.getD (off + 3) 0)
  else none

/-- Node Buffer.readUInt16LE: throws (`none`) when the buffer is shorter
    than offset+2. -/
def readUInt16LE (b : Bytes) (off : Nat) : Option Nat :=
  if off + 2 ≤ b.length then some (b.getD off 0 + 256 * b.getD (off + 1) 0) else none

/-- Node Buffer.readUInt8: throws (`none`) when the buffer is shorter
    than offset+1. -/
def readUInt8 (b : Bytes) (off : Nat) : Option Nat :=
  if off + 1 ≤ b.length then some (b.getD off 0) else none

/-- Node Buffer.subarray(start, stop): clamps both ends to the buffer,
    never throws. -/
def subarray (b : Bytes) (start stop : Nat) : Bytes :=
  (b.take stop).drop start

/-- Strict bounded read used by the spec-modelled decoder: exactly `n` bytes
    at `off`, failing when the buffer is shorter than the field demands. -/
def readBytes (b : Bytes) (off n : Nat) : Option Bytes :=
  if off + n ≤ b.length then some ((b.drop off).take n) else none

/-- Buffer.writeUInt32LE of a length value (the 4-byte little-endian
    length prefix of a Borsh string). -/
def u32LEBytes (n : Nat) : Bytes :=
  [n % 256, n / 256 % 256, n / 65536 % 256, n / 16777216 % 256]

/- ===== Data model (src/types/index.ts) ===== -/

/-- LineageInfo: one decoded model account.  `modelName` is kept as its
    UTF-8 bytes (the service stores the decoded JS string). -/
structure LineageInfo where
  modelPDA : PubKey
  developerWallet : PubKey
  modelName : Bytes
  depth : Nat
  parentPDA : Option PubKey
deriving Repr, DecidableEq

/-- Violation messages pushed by traceLineage.  Each constructor carries
    the data the source interpolates into the template string, e.g.
    `accountNotFound pda` stands for the string
    "Model account not found: " followed by the base58 form of `pda`. -/
inductive Violation where
  | accountNotFound (pda : PubKey)
  | decodeFailure (pda : PubKey)
  | maxDepthExceeded (depth : Nat)
  | circularReference
deriving Repr, DecidableEq

/-- LineageTrace.  The source returns `violations: undefined` instead of an
    empty array; both are modelled by `[]`. -/
structure LineageTrace where
  lineage : List LineageInfo
  totalDepth : Nat
  isValid : Bool
  violations : List Violation
deriving Repr, DecidableEq

/-- One entry of RoyaltyDistribution.lineageRoyalties. -/
structure LineageRoyalty where
  modelPDA : PubKey
  developerWallet : PubKey
  modelName : Bytes
  depth : Nat
  amount : Int
deriving Repr, DecidableEq

/-- RoyaltyDistribution (src/types/index.ts). -/
structure RoyaltyDistribution where
  totalLamports : Int
  platformAmount : Int
  developerAmount : Int
  lineageRoyalties : List LineageRoyalty
  totalLineageAmount : Int
  remainingAmount : Int
deriving Repr, DecidableEq

/- ===== Instruction codec (solanaService.ts lines 34-58, 271-277, 349-353) ===== -/

/-- getAnchorDiscriminator: first 8 bytes of SHA-256 of "global:" + method.
    `sha256` is the abstract crypto.createHash('sha256') primitive. -/
def getAnchorDiscriminator (sha256 : Bytes → Bytes) (method : String) : Bytes :=
  (sha256 (utf8Bytes ("global:" ++ method))).take 8

/-- encodeBorshString: u32 little-endian length prefix + raw UTF-8 bytes.
    The argument is the string's UTF-8 byte content. -/
def encodeBorshString (value : Bytes) : Bytes :=
  u32LEBytes value.length ++ value

/-- encodeBorshOptionPubkey: 1-byte tag (0 = None, 1 = Some) + 32 key
    bytes when present. -/
def encodeBorshOptionPubkey : Option PubKey → Bytes
  | some pubkey => 1 :: pubkey
  | none => [0]

/-- Instruction data assembled by createModelRegistrationTransaction
    (lines 271-277): discriminator ++ model_name ++ metadata_json ++
    cid_root ++ Option parent_model_pubkey. -/
def createModelInstructionData (sha256 : Bytes → Bytes)
    (modelName metadataJson cidRoot : Bytes) (parentModelPubkey : Option PubKey) : Bytes :=
  getAnchorDiscriminator sha256 "create_model"
    ++ encodeBorshString modelName
    ++ encodeBorshString metadataJson
    ++ encodeBorshString cidRoot
    ++ encodeBorshOptionPubkey parentModelPubkey

/-- Instruction data assembled by createSubscriptionTransaction
    (lines 349-353): Buffer.concat([purchaseSubscriptionDiscriminator]) —
    the discriminator alone, no argument payload. -/
def purchaseSubscriptionData (sha256 : Bytes → Bytes) : Bytes :=
  List.flatten [getAnchorDiscriminator sha256 "purchase_subscription"]

/- ===== Address derivation (lines 159-205) =====

   PublicKey.findProgramAddress(Sync) repeatedly hashes
   seeds ++ [bump] ++ programId ++ "ProgramDerivedAddress", trying bump
   255 down to 0, until the hash is not a curve point.  `isOnCurve` is the
   abstract ed25519 point-decompression test. -/

def createProgramAddress (sha256 : Bytes → Bytes) (seeds : List Bytes)
    (programId : PubKey) : Bytes :=
  sha256 (List.flatten seeds ++ programId ++ utf8Bytes "ProgramDerivedAddress")

def findProgramAddressAux (sha256 : Bytes → Bytes) (isOnCurve : Bytes → Bool)
    (seeds : List Bytes) (programId : PubKey) : Nat → Option (Bytes × Nat)
  | 0 => none
  | n + 1 =>
    let bump := n
    let address := createProgramAddress sha256 (seeds ++ [[bump]]) programId
    if isOnCurve address then findProgramAddressAux sha256 isOnCurve seeds programId n
    else some (address, bump)

/-- findProgramAddress: bump 255 first, descending; `none` models the
    "Unable to find a viable program address nonce" throw. -/
def findProgramAddress (sha256 : Bytes → Bytes) (isOnCurve : Bytes → Bool)
    (seeds : List Bytes) (programId : PubKey) : Option (Bytes × Nat) :=
  findProgramAddressAux sha256 isOnCurve seeds programId 256

/-- getModelAccountPDA (lines 159-192): seeds
    [utf8 "model", creator key bytes, utf8 modelName], bump dropped. -/
def getModelAccountPDA (sha256 : Bytes → Bytes) (isOnCurve : Bytes → Bool)
    (programId creatorPubkey : PubKey) (modelName : String) : Option PubKey :=
  let seed0 := utf8Bytes "model"
  let seed1 := creatorPubkey
  let seed2 := utf8Bytes modelName
  (findProgramAddress sha256 isOnCurve [seed0, seed1, seed2] programId).map Prod.fst

/-- getSubscriptionReceiptPDA (lines 195-205): seeds
    [utf8 "receipt", model key bytes, user key bytes], bump dropped. -/
def getSubscriptionReceiptPDA (sha256 : Bytes → Bytes) (isOnCurve : Bytes → Bool)
    (programId modelPubkey userWallet : PubKey) : Option PubKey :=
  (findProgramAddress sha256 isOnCurve
    [utf8Bytes "receipt", modelPubkey, userWallet] programId).map Prod.fst

/- ===== Account decoding (lines 433-485) ===== -/

/-- decodeModelAccountData.  Offsets follow the source: 8-byte discriminator
    skipped, creator = subarray(8, 40) (subarray clamps and the PublicKey
    constructor accepts any value of at most 32 bytes, so a short creator
    read does not throw), model_name length at 40, name content clamped,
    metadata_json and cid_root lengths read and their content skipped,
    parent tag byte, 32 parent bytes when the tag is 1 (again clamped,
    non-throwing), lineage_depth u16, created_at skipped without a read.
    The bounded reads readUInt32LE / readUInt8 / readUInt16LE throw on a
    too-short buffer; the surrounding try/catch maps any throw to `null`.
    The success path then builds the result record with
    `modelPDA: new PublicKey('')` — a placeholder the caller is meant to
    overwrite — but base58-decoding the empty string yields 0 bytes, which
    the PublicKey string constructor rejects, so the catch block returns
    `null` on every input: the final `none` below models that throw. -/
def decodeModelAccountData (accountData : Bytes) : Option LineageInfo :=
  match readUInt32LE accountData 40 with
  | none => none
  | some modelNameLength =>
    match readUInt32LE accountData (44 + modelNameLength) with
    | none => none
    | some metadataJsonLength =>
      match readUInt32LE accountData (44 + modelNameLength + 4 + metadataJsonLength) with
      | none => none
      | some cidRootLength =>
        match readUInt8 accountData
            (44 + modelNameLength + 4 + metadataJsonLength + 4 + cidRootLength) with
        | none => none
        | some parentTag =>
          match readUInt16LE accountData
              (44 + modelNameLength + 4 + metadataJsonLength + 4 + cidRootLength + 1
                + (if parentTag = 1 then 32 else 0)) with
          | none => none
          | some _depth => none

/-- Modelled from the spec: `decode_model_account(bytes) -> ModelRecord`
    (spec section 4.2) — the decoder the source intends, without the
    `new PublicKey('')` slip.  Skip the 8-byte discriminator; read the
    32-byte creator; read the length-prefixed modelName; read and discard
    metadataJson and cidRoot; read the optional-parent tag and 32 key bytes
    when the tag is 1; read the 2-byte little-endian lineageDepth; skip the
    8-byte createdAt.  Fails (`none`, MalformedAccount) whenever the buffer
    is shorter than the field being read demands.  The record's own address
    is attached by the caller; `modelPDA := []` is the placeholder. -/
def decode_model_account_spec (b : Bytes) : Option LineageInfo := do
  let creator ← readBytes b 8 32
  let nameLen ← readUInt32LE b 40
  let name ← readBytes b 44 nameLen
  let metaLen ← readUInt32LE b (44 + nameLen)
  let _meta ← readBytes b (48 + nameLen) metaLen
  let cidLen ← readUInt32LE b (48 + nameLen + metaLen)
  let _cid ← readBytes b (52 + nameLen + metaLen) cidLen
  let tag ← readUInt8 b (52 + nameLen + metaLen + cidLen)
  if tag = 1 then do
    let parent ← readBytes b (52 + nameLen + metaLen + cidLen + 1) 32
    let depth ← readUInt16LE b (52 + nameLen + metaLen + cidLen + 33)
    pure ⟨[], creator, name, depth, some parent⟩
  else do
    let depth ← readUInt16LE b (52 + nameLen + metaLen + cidLen + 1)
    pure ⟨[], creator, name, depth, none⟩

/- ===== Lineage resolver (lines 488-550) =====

   traceLineage is the source's iterative walk; the decoder is factored out
   as a parameter so that the intended behaviour (decode_model_account_spec)
   can be stated next to the actual one (decodeModelAccountData).
   `fetch` is the external getAccountInfo collaborator: `none` models a
   missing account (accountInfo null); when an account exists its data
   buffer is present.  The loop condition `currentPDA && depth < maxDepth`
   reduces to `depth < maxDepth` (a PublicKey object is always truthy), so
   the remaining fuel is `maxDepth - depth`. -/

def traceLoopWith (decode : Bytes → Option LineageInfo) (fetch : PubKey → Option Bytes) :
    Nat → PubKey → Nat → List LineageInfo → List Violation →
    List LineageInfo × List Violation × Nat
  | 0, _, depth, lineage, violations => (lineage, violations, depth)
  | fuel + 1, currentPDA, depth, lineage, violations =>
    match fetch currentPDA with
    | none => (lineage, violations ++ [.accountNotFound currentPDA], depth)
    | some accountData =>
      match decode accountData with
      | none => (lineage, violations ++ [.decodeFailure currentPDA], depth)
      | some info =>
        let info2 : LineageInfo := { info with modelPDA := currentPDA }
        match info2.parentPDA with
        | some parentPDA =>
          traceLoopWith decode fetch fuel parentPDA (depth + 1) (lineage ++ [info2]) violations
        | none => (lineage ++ [info2], violations, depth)

/-- Post-loop checks and result assembly of traceLineage (lines 524-540):
    push "Maximum lineage depth exceeded" when depth >= maxDepth, push
    "Circular reference detected in lineage" when the set of visited
    addresses is smaller than the visited list (PublicKey.toString is
    injective on keys, so the set of base58 strings has the cardinality of
    `dedup`), and isValid holds iff no violation was collected. -/
def traceLineageWith (decode : Bytes → Option LineageInfo) (fetch : PubKey → Option Bytes)
    (modelPDA : PubKey) (maxDepth : Nat) : LineageTrace :=
  let r := traceLoopWith decode fetch maxDepth modelPDA 0 [] []
  let lineage := r.1
  let depth := r.2.2
  let violations0 := r.2.1
  let violations1 :=
    if maxDepth ≤ depth then violations0 ++ [.maxDepthExceeded depth] else violations0
  let violations2 :=
    if (lineage.map (fun l => l.modelPDA)).dedup.length ≠ lineage.length then
      violations1 ++ [.circularReference]
    else violations1
  { lineage := lineage, totalDepth := depth, isValid := violations2.isEmpty,
    violations := violations2 }

/-- traceLineage as shipped: the walk with the source's decoder (which
    returns `null` on every buffer).  The source defaults maxDepth to 32;
    both in-repo call sites use that default. -/
def traceLineage (fetch : PubKey → Option Bytes) (modelPDA : PubKey) (maxDepth : Nat) :
    LineageTrace :=
  traceLineageWith decodeModelAccountData fetch modelPDA maxDepth

/-- Modelled from the spec: the lineage walk as intended (spec section 4.3),
    identical to traceLineage except that it uses the intended decoder
    decode_model_account_spec instead of the always-failing shipped one. -/
def traceLineage_spec (fetch : PubKey → Option Bytes) (modelPDA : PubKey) (maxDepth : Nat) :
    LineageTrace :=
  traceLineageWith decode_model_account_spec fetch modelPDA maxDepth

/- ===== Royalty engine (lines 553-602) ===== -/

/-- Loop body of calculateLineageRoyaltyDistribution (lines 565-592),
    iterating `for i = lineage.length - 1 downto 0`, i.e. over the reversed
    lineage (root first, queried node last).  The 2.5 percent per-ancestor
    rate is the hard-coded literal 250 of line 567.  Returns
    (pushed royalties, totalLineageAmount, remainingAmount). -/
def royaltyLoop (totalLamports minRoyaltyLamports : Int) :
    List LineageInfo → Int → List LineageRoyalty × Int × Int
  | [], remainingAmount => ([], 0, remainingAmount)
  | lineageInfo :: rest, remainingAmount =>
    let royaltyAmount : Int := Int.fdiv (totalLamports * 250) 10000
    if royaltyAmount < minRoyaltyLamports then ([], 0, remainingAmount)
    else if remainingAmount < royaltyAmount then ([], 0, remainingAmount)
    else
      let next := royaltyLoop totalLamports minRoyaltyLamports rest
        (remainingAmount - royaltyAmount)
      (⟨lineageInfo.modelPDA, lineageInfo.developerWallet, lineageInfo.modelName,
          lineageInfo.depth, royaltyAmount⟩ :: next.1,
        next.2.1 + royaltyAmount, next.2.2)

/-- calculateLineageRoyaltyDistribution (lines 553-602).  Math.floor on the
    exact products is floor division, `Int.fdiv`.  The source defaults
    platformFeeBps and minRoyaltyLamports from environment variables with
    fallbacks 500 and 1000; here they are explicit arguments. -/
def calculateLineageRoyaltyDistribution (totalLamports : Int) (lineageTrace : LineageTrace)
    (platformFeeBps minRoyaltyLamports : Int) : RoyaltyDistribution :=
  let platformAmount := Int.fdiv (totalLamports * platformFeeBps) 10000
  let remainingAmount := totalLamports - platformAmount
  let r := royaltyLoop totalLamports minRoyaltyLamports lineageTrace.lineage.reverse
    remainingAmount
  { totalLamports := totalLamports, platformAmount := platformAmount,
    developerAmount := r.2.2, lineageRoyalties := r.1,
    totalLineageAmount := r.2.1, remainingAmount := r.2.2 }

/-- Modelled from the spec: the share loop of `distribute` (spec section
    4.4), with perAncestorBps an explicit parameter: share =
    floor(totalAmount * perAncestorBps / 10000); stop the entire iteration
    the first time share < minShareAmount or share > remaining. -/
def specShareLoop (totalAmount perAncestorBps minShareAmount : Int) :
    List LineageInfo → Int → List LineageRoyalty × Int × Int
  | [], remaining => ([], 0, remaining)
  | record :: rest, remaining =>
    let share : Int := Int.fdiv (totalAmount * perAncestorBps) 10000
    if share < minShareAmount then ([], 0, remaining)
    else if remaining < share then ([], 0, remaining)
    else
      let next := specShareLoop totalAmount perAncestorBps minShareAmount rest
        (remaining - share)
      (⟨record.modelPDA, record.developerWallet, record.modelName,
          record.depth, share⟩ :: next.1,
        next.2.1 + share, next.2.2)

/-- Modelled from the spec: `distribute(totalAmount, trace, platformFeeBps
    = 500, minShareAmount = 1000, perAncestorBps = 250)` (spec section 4.4):
    platform fee floor(totalAmount * platformFeeBps / 10000), root-first
    share loop, developerAmount = whatever remains after the loop. -/
def distribute (totalAmount : Int) (trace : LineageTrace)
    (platformFeeBps minShareAmount perAncestorBps : Int) : RoyaltyDistribution :=
  let platformAmount := Int.fdiv (totalAmount * platformFeeBps) 10000
  let remaining := totalAmount - platformAmount
  let r := specShareLoop totalAmount perAncestorBps minShareAmount trace.lineage.reverse
    remaining
  { totalLamports := totalAmount, platformAmount := platformAmount,
    developerAmount := r.2.2, lineageRoyalties := r.1,
    totalLineageAmount := r.2.1, remainingAmount := r.2.2 }

/- ===== Transaction assembly (lines 336-429) ===== -/

/-- One element of a transaction: a program instruction (programId, keys as
    (pubkey, isSigner, isWritable), data bytes) or a SystemProgram.transfer
    directive. -/
inductive TxInstruction where
  | program (programId : PubKey) (keys : List (PubKey × Bool × Bool)) (data : Bytes)
  | transfer (fromPubkey toPubkey : PubKey) (lamports : Int)
deriving Repr, DecidableEq

/-- The system program id, the all-zero 32-byte key. -/
def systemProgramId : PubKey := List.replicate 32 0

/-- SubscriptionData fields used by createSubscriptionTransaction. -/
structure SubscriptionData where
  modelPubkey : PubKey
  userWallet : PubKey
  expectedPriceLamports : Int
  platformFeeBps : Option Int
  minRoyaltyLamports : Option Int
  platformFeeWallet : Option PubKey
  modelDeveloperWallet : Option PubKey
deriving Repr, DecidableEq

/-- Transfer directives appended after the purchase instruction
    (lines 381-409): platform fee only when a platform wallet is known and
    the amount is positive, one transfer per lineage royalty with no amount
    guard, and the developer remainder only when the developer wallet is
    known and the amount is positive. -/
def subscriptionTransfers (rd : RoyaltyDistribution) (userWallet : PubKey)
    (platformWallet developerWallet : Option PubKey) : List TxInstruction :=
  (match platformWallet with
    | some w =>
      if 0 < rd.platformAmount then [TxInstruction.transfer userWallet w rd.platformAmount]
      else []
    | none => [])
  ++ rd.lineageRoyalties.map
      (fun lr => TxInstruction.transfer userWallet lr.developerWallet lr.amount)
  ++ (match developerWallet with
    | some w =>
      if 0 < rd.developerAmount then [TxInstruction.transfer userWallet w rd.developerAmount]
      else []
    | none => [])

/-- createSubscriptionTransaction (lines 336-429): derive the receipt PDA
    (`none` when derivation throws), build the purchase instruction whose
    data is the bare discriminator, trace the lineage with the default
    maxDepth 32, compute the royalty split (platformFeeBps and
    minRoyaltyLamports fall back to the environment values envPlatformFeeBps
    and envMinRoyaltyLamports), resolve the platform wallet from the request
    or the environment, and append the transfer directives.  The treasury
    key and the fee payer / blockhash bookkeeping are external state. -/
def createSubscriptionTransaction (sha256 : Bytes → Bytes) (isOnCurve : Bytes → Bool)
    (programId : PubKey) (fetch : PubKey → Option Bytes) (treasuryPubkey : PubKey)
    (envPlatformFeeBps envMinRoyaltyLamports : Int) (envPlatformFeeWallet : Option PubKey)
    (s : SubscriptionData) : Option (List TxInstruction) :=
  match getSubscriptionReceiptPDA sha256 isOnCurve programId s.modelPubkey s.userWallet with
  | none => none
  | some receiptPDA =>
    let keys := [(receiptPDA, false, true), (s.userWallet, true, true),
      (s.modelPubkey, false, true), (treasuryPubkey, true, true),
      (systemProgramId, false, false)]
    let purchaseInstruction :=
      TxInstruction.program programId keys (purchaseSubscriptionData sha256)
    let lineageTrace := traceLineage fetch s.modelPubkey 32
    let platformFeeBps := s.platformFeeBps.getD envPlatformFeeBps
    let minRoyaltyLamports := s.minRoyaltyLamports.getD envMinRoyaltyLamports
    let rd := calculateLineageRoyaltyDistribution s.expectedPriceLamports lineageTrace
      platformFeeBps minRoyaltyLamports
    let platformWallet :=
      match s.platformFeeWallet with
      | some w => some w
      | none => envPlatformFeeWallet
    some (purchaseInstruction ::
      subscriptionTransfers rd s.userWallet platformWallet s.modelDeveloperWallet)

/-- Every transfer directive of a transaction carries a positive amount. -/
def txTransfersPositive (tx : List TxInstruction) : Bool :=
  tx.all fun i =>
    match i with
    | .transfer _ _ lamports => decide (0 < lamports)
    | .program _ _ _ => true

/-- txTransfersPositive lifted over the optional assembly result. -/
def optTxOk : Option (List TxInstruction) → Bool
  | none => true
  | some tx => txTransfersPositive tx

/- ===== Concrete fixtures used by the claim instances ===== -/

/-- A one-record lineage entry (model key 2…, developer wallet 3…, name "m",
    depth 0, root). -/
def exampleInfo : LineageInfo :=
  ⟨List.replicate 32 2, List.replicate 32 3, [109], 0, none⟩

/-- A valid one-element lineage trace around exampleInfo. -/
def exampleTrace1 : LineageTrace := ⟨[exampleInfo], 1, true, []⟩

/-- A well-formed model account buffer: discriminator, creator 1…,
    modelName "ab", empty metadataJson and cidRoot, no parent, depth 0,
    createdAt zeros — 65 bytes, every field present. -/
def goodBuf : Bytes :=
  List.replicate 8 0 ++ List.replicate 32 1 ++ [2, 0, 0, 0] ++ [97, 98]
    ++ [0, 0, 0, 0] ++ [0, 0, 0, 0] ++ [0] ++ [0, 0] ++ List.replicate 8 0

/-- Addresses of the synthetic parent chain: key i is the byte i followed
    by 31 zeros. -/
def chainAddr (i : Nat) : PubKey := i :: List.replicate 31 0

/-- Account buffer of chain node i: parent pointer to node i+1 for the
    first 40 nodes, node 40 is the root. -/
def chainBuf (i : Nat) : Bytes :=
  List.replicate 8 0 ++ List.replicate 32 0 ++ [0, 0, 0, 0] ++ [0, 0, 0, 0] ++ [0, 0, 0, 0]
    ++ (if i < 40 then 1 :: chainAddr (i + 1) else [0]) ++ [0, 0] ++ List.replicate 8 0

/-- Fetch collaborator serving the synthetic 40-link parent chain. -/
def chainFetch : PubKey → Option Bytes
  | [] => none
  | i :: _ => if i ≤ 40 then some (chainBuf i) else none

/-- Addresses A and B of the synthetic two-link cycle. -/
def cycAddrA : PubKey := 100 :: List.replicate 31 0

def cycAddrB : PubKey := 101 :: List.replicate 31 0

/-- Account buffer holding only a parent pointer. -/
def cycBuf (parent : PubKey) : Bytes :=
  List.replicate 8 0 ++ List.replicate 32 0 ++ [0, 0, 0, 0] ++ [0, 0, 0, 0] ++ [0, 0, 0, 0]
    ++ (1 :: parent) ++ [0, 0] ++ List.replicate 8 0

/-- Fetch collaborator serving the cycle A→B→A. -/
def cycFetch : PubKey → Option Bytes
  | [] => none
  | i :: _ =>
    if i = 100 then some (cycBuf cycAddrB)
    else if i = 101 then some (cycBuf cycAddrA) else none

/-- A stand-in hash function used to instantiate the abstract SHA-256
    parameter in concrete witnesses. -/
def constSha : Bytes → Bytes := fun _ => List.replicate 32 0

/-- A concrete subscription request used in witnesses. -/
def exampleSub : SubscriptionData :=
  ⟨List.replicate 32 6, List.replicate 32 7, 1000000000, none, none, none,
    some (List.replicate 32 8)⟩

/- ===== Helper lemmas ===== -/

/-- The shipped decoder rejects every buffer: each read failure propagates,
    and the success path still ends in the `new PublicKey('')` throw. -/
theorem decodeModelAccountData_eq_none (b : Bytes) : decodeModelAccountData b = none := by
  unfold decodeModelAccountData
  repeat' split
  all_goals rfl

/-- The walk performs at most `fuel` parent-following steps. -/
theorem traceLoopWith_depth_le (decode : Bytes → Option LineageInfo)
    (fetch : PubKey → Option Bytes) :
    ∀ (fuel : Nat) (cur : PubKey) (depth : Nat) (lineage : List LineageInfo)
      (violations : List Violation),
      (traceLoopWith decode fetch fuel cur depth lineage violations).2.2 ≤ depth + fuel := by
  intro fuel
  induction fuel with
  | zero => intro cur depth lineage violations; simp [traceLoopWith]
  | succ n ih =>
    intro cur depth lineage violations
    unfold traceLoopWith
    cases hf : fetch cur with
    | none => simp [hf]
    | some accountData =>
      cases hd : decode accountData with
      | none => simp [hf, hd]
      | some info =>
        cases hp : info.parentPDA with
        | none => simp [hf, hd, hp]
        | some parentPDA =>
          simp only [hf, hd, hp]
          have h := ih parentPDA (depth + 1)
            (lineage ++ [⟨cur, info.developerWallet, info.modelName, info.depth,
              some parentPDA⟩]) violations
          omega

/-- The share loop conserves value: accepted total plus remainder equals
    the remainder it started from. -/
theorem royaltyLoop_conserves (t m : Int) :
    ∀ (l : List LineageInfo) (rem : Int),
      (royaltyLoop t m l rem).2.1 + (royaltyLoop t m l rem).2.2 = rem := by
  intro l
  induction l with
  | nil => intro rem; simp [royaltyLoop]
  | cons a l ih =>
    intro rem
    simp only [royaltyLoop]
    split
    · simp
    · split
      · simp
      · have h := ih (rem - Int.fdiv (t * 250) 10000)
        dsimp only
        omega

/-- Every share the loop accepts is at least the minimum share amount. -/
theorem royaltyLoop_amounts (t m : Int) :
    ∀ (l : List LineageInfo) (rem : Int) (r : LineageRoyalty),
      r ∈ (royaltyLoop t m l rem).1 → m ≤ r.amount := by
  intro l
  induction l with
  | nil => intro rem r h; simp [royaltyLoop] at h
  | cons a l ih =>
    intro rem r h
    simp only [royaltyLoop] at h
    split at h
    · simp at h
    · split at h
      · simp at h
      · rename_i hmin hrem
        simp only [List.mem_cons] at h
        rcases h with h | h
        · subst h; simpa using le_of_not_lt hmin
        · exact ih (rem - Int.fdiv (t * 250) 10000) r h

/-- The shipped loop is the specified share loop with the rate frozen at
    250 basis points. -/
theorem royaltyLoop_eq_specShareLoop (t m : Int) :
    ∀ (l : List LineageInfo) (rem : Int),
      royaltyLoop t m l rem = specShareLoop t 250 m l rem := by
  intro l
  induction l with
  | nil => intro rem; rfl
  | cons a l ih =>
    intro rem
    unfold royaltyLoop specShareLoop
    simp only [ih]

/-- Every royalty the shipped computation accepts is positive once the
    minimum share amount is at least 1. -/
theorem calc_royalties_pos (t : Int) (tr : LineageTrace) (pf mr : Int) (hmr : 1 ≤ mr) :
    ∀ r ∈ (calculateLineageRoyaltyDistribution t tr pf mr).lineageRoyalties, 0 < r.amount := by
  intro r hr
  simp only [calculateLineageRoyaltyDistribution] at hr
  have h := royaltyLoop_amounts t mr tr.lineage.reverse
    (t - Int.fdiv (t * pf) 10000) r hr
  omega

/-- The transfer directives assembled around a distribution are all positive
    when every accepted royalty is. -/
theorem subscriptionTransfers_positive (rd : RoyaltyDistribution) (u : PubKey)
    (pw dw : Option PubKey) (h : ∀ r ∈ rd.lineageRoyalties, 0 < r.amount) :
    txTransfersPositive (subscriptionTransfers rd u pw dw) = true := by
  simp only [txTransfersPositive, subscriptionTransfers, List.all_append,
    Bool.and_eq_true, List.all_map]
  refine ⟨⟨?_, ?_⟩, ?_⟩
  · cases pw with
    | none => rfl
    | some w =>
      dsimp only
      split
      · rename_i hpos; simp [hpos]
      · rfl
  · rw [List.all_eq_true]
    intro i hi
    simp only [List.mem_map] at hi
    obtain ⟨r, hr, rfl⟩ := hi
    simpa using h r hr
  · cases dw with
    | none => rfl
    | some w =>
      dsimp only
      split
      · rename_i hpos; simp [hpos]
      · rfl

/- ===== Claim theorems ===== -/

/-- Claim C1: for every totalAmount, lineage trace, platformFeeBps and
    minShareAmount, the distribution returned by
    calculateLineageRoyaltyDistribution satisfies
    platformAmount + totalAncestorAmount (totalLineageAmount) +
    developerAmount = totalAmount exactly in integer arithmetic — in
    particular for the listed totals and fee rates and any lineage of
    length 0..32, all instances of this universal statement. -/
theorem claim_C1_conservation (totalLamports : Int) (trace : LineageTrace)
    (platformFeeBps minRoyaltyLamports : Int) :
    (calculateLineageRoyaltyDistribution totalLamports trace platformFeeBps
        minRoyaltyLamports).platformAmount
      + (calculateLineageRoyaltyDistribution totalLamports trace platformFeeBps
        minRoyaltyLamports).totalLineageAmount
      + (calculateLineageRoyaltyDistribution totalLamports trace platformFeeBps
        minRoyaltyLamports).developerAmount
      = totalLamports := by
  simp only [calculateLineageRoyaltyDistribution]
  have h := royaltyLoop_conserves totalLamports minRoyaltyLamports trace.lineage.reverse
    (totalLamports - Int.fdiv (totalLamports * platformFeeBps) 10000)
  omega

/-- Claim C2 (amended): calculateLineageRoyaltyDistribution iterates the
    lineage from the last element (root) toward index 0 with the queried
    node included, computes every candidate share as
    floor(totalAmount * 250 / 10000) — the 250 basis-point rate being a
    hard-coded literal, not a perAncestorBps parameter — stops the entire
    iteration the first time share < minShareAmount or share > remaining,
    and sets developerAmount to exactly the remaining amount: the shipped
    function coincides with the specified `distribute` frozen at
    perAncestorBps = 250. -/
theorem claim_C2_fixed_rate (totalLamports : Int) (trace : LineageTrace)
    (platformFeeBps minRoyaltyLamports : Int) :
    calculateLineageRoyaltyDistribution totalLamports trace platformFeeBps minRoyaltyLamports
      = distribute totalLamports trace platformFeeBps minRoyaltyLamports 250 := by
  simp only [calculateLineageRoyaltyDistribution, distribute, royaltyLoop_eq_specShareLoop]

/-- Claim C2 (counterexample): there is no explicit perAncestorBps
    parameter — at a concrete input the specified contract evaluated at
    perAncestorBps = 500 disagrees with the shipped function, whose only
    rate is the hard-coded 250. -/
theorem claim_C2_counterexample :
    calculateLineageRoyaltyDistribution 1000000 exampleTrace1 0 0
      ≠ distribute 1000000 exampleTrace1 0 0 500 := by decide

/-- Claim C3: model address derivation uses exactly the seed layout
    [utf8 "model", 32-byte creator key, utf8 modelName] and the
    subscription-receipt derivation exactly [utf8 "receipt", 32-byte model
    key, 32-byte user key], in that order against the program id, and both
    derivations are deterministic: equal inputs give equal addresses. -/
theorem claim_C3_pda_seed_layouts (sha256 : Bytes → Bytes) (isOnCurve : Bytes → Bool)
    (programId creatorPubkey modelPubkey userWallet : PubKey) (modelName : String)
    (hc : creatorPubkey.length = 32) (hm : modelPubkey.length = 32)
    (hu : userWallet.length = 32) :
    getModelAccountPDA sha256 isOnCurve programId creatorPubkey modelName
        = (findProgramAddress sha256 isOnCurve
            [utf8Bytes "model", creatorPubkey, utf8Bytes modelName] programId).map Prod.fst
      ∧ getSubscriptionReceiptPDA sha256 isOnCurve programId modelPubkey userWallet
        = (findProgramAddress sha256 isOnCurve
            [utf8Bytes "receipt", modelPubkey, userWallet] programId).map Prod.fst
      ∧ (∀ (c2 : PubKey) (n2 : String), c2 = creatorPubkey → n2 = modelName →
          getModelAccountPDA sha256 isOnCurve programId c2 n2
            = getModelAccountPDA sha256 isOnCurve programId creatorPubkey modelName)
      ∧ (∀ (m2 u2 : PubKey), m2 = modelPubkey → u2 = userWallet →
          getSubscriptionReceiptPDA sha256 isOnCurve programId m2 u2
            = getSubscriptionReceiptPDA sha256 isOnCurve programId modelPubkey userWallet) :=
  ⟨rfl, rfl, fun c2 n2 hcc hnn => by rw [hcc, hnn], fun m2 u2 hmm huu => by rw [hmm, huu]⟩

/-- Claim C3 (witness): the seed-layout equation instantiated at concrete
    32-byte keys and the name "m". -/
theorem claim_C3_witness :
    (List.replicate 32 5 : PubKey).length = 32
      ∧ getModelAccountPDA constSha (fun _ => false) (List.replicate 32 1)
          (List.replicate 32 5) "m"
        = (findProgramAddress constSha (fun _ => false)
            [utf8Bytes "model", List.replicate 32 5, utf8Bytes "m"]
            (List.replicate 32 1)).map Prod.fst :=
  ⟨by decide, (claim_C3_pda_seed_layouts constSha (fun _ => false) (List.replicate 32 1)
      (List.replicate 32 5) (List.replicate 32 6) (List.replicate 32 7) "m"
      (by decide) (by decide) (by decide)).1⟩

/-- Claim C4 (code bug): on a well-formed 65-byte account buffer with every
    field present the shipped decoder still returns null — the success path
    constructs `new PublicKey('')`, which throws — while the decoder the
    specification describes succeeds on the same buffer and returns the
    encoded creator, modelName "ab", depth 0 and no parent. -/
theorem claim_C4_decode_bug :
    decodeModelAccountData goodBuf = none
      ∧ decode_model_account_spec goodBuf
        = some ⟨[], List.replicate 32 1, [97, 98], 0, none⟩ :=
  ⟨decodeModelAccountData_eq_none goodBuf, by decide⟩

/-- Claim C5 (counterexample): encoding the create_model payload
    (modelName "a", empty metadataJson and cidRoot, no parent) and decoding
    the 22 resulting bytes recovers nothing: the shipped decoder returns
    null, and even the specified decoder fails, because the account layout
    it reads (creator key before modelName, lineageDepth and createdAt
    after) is not the instruction layout that was encoded. -/
theorem claim_C5_counterexample :
    decodeModelAccountData (createModelInstructionData constSha [97] [] [] none) = none
      ∧ decode_model_account_spec (createModelInstructionData constSha [97] [] [] none)
        = none :=
  ⟨decodeModelAccountData_eq_none _, by decide⟩

/-- Claim C5 (amended): the create_model payload is discriminator ++
    string(modelName) ++ string(metadataJson) ++ string(cidRoot) ++ the
    None tag, and decoding it with decodeModelAccountData yields null for
    every modelName, metadataJson and cidRoot — the round trip never
    recovers modelName. -/
theorem claim_C5_no_roundtrip (sha256 : Bytes → Bytes)
    (modelName metadataJson cidRoot : Bytes) :
    createModelInstructionData sha256 modelName metadataJson cidRoot none
        = getAnchorDiscriminator sha256 "create_model" ++ encodeBorshString modelName
          ++ encodeBorshString metadataJson ++ encodeBorshString cidRoot ++ [0]
      ∧ decodeModelAccountData
          (createModelInstructionData sha256 modelName metadataJson cidRoot none) = none :=
  ⟨rfl, decodeModelAccountData_eq_none _⟩

/-- Claim C6: the purchase_subscription instruction payload is exactly the
    8-byte discriminator — the first 8 bytes of SHA-256 of the literal
    string "global:purchase_subscription" — with no argument payload
    appended (8 bytes total whenever the hash is the usual 32 bytes). -/
theorem claim_C6_purchase_payload (sha256 : Bytes → Bytes)
    (h : (sha256 (utf8Bytes "global:purchase_subscription")).length = 32) :
    purchaseSubscriptionData sha256
        = (sha256 (utf8Bytes "global:purchase_subscription")).take 8
      ∧ (purchaseSubscriptionData sha256).length = 8 := by
  have hs : ("global:" ++ "purchase_subscription" : String)
      = "global:purchase_subscription" := rfl
  constructor
  · simp [purchaseSubscriptionData, getAnchorDiscriminator, hs]
  · simp only [purchaseSubscriptionData, getAnchorDiscriminator, hs, List.flatten,
      List.append_nil, List.length_take, h]
    omega

/-- Claim C6 (witness): the payload equation instantiated at a concrete
    32-byte hash function. -/
theorem claim_C6_witness :
    (constSha (utf8Bytes "global:purchase_subscription")).length = 32
      ∧ (purchaseSubscriptionData constSha
          = (constSha (utf8Bytes "global:purchase_subscription")).take 8
        ∧ (purchaseSubscriptionData constSha).length = 8) :=
  ⟨by decide, claim_C6_purchase_payload constSha (by decide)⟩

/-- Claim C7 (code bug): traceLineage performs at most maxDepth
    parent-following steps for every fetch collaborator and start address;
    but on the synthetic 40-link parent chain the shipped walk does not
    truncate at depth 32 — it stops at depth 0 with a decode-failure
    violation, because the shipped decoder rejects every buffer — whereas
    the walk with the intended decoder truncates at depth 32 with the
    max-depth-exceeded violation and isValid = false, as the claim states. -/
theorem claim_C7_depth_bound :
    (∀ (fetch : PubKey → Option Bytes) (modelPDA : PubKey) (maxDepth : Nat),
        (traceLineage fetch modelPDA maxDepth).totalDepth ≤ maxDepth)
      ∧ (traceLineage chainFetch (chainAddr 0) 32).totalDepth = 0
      ∧ (traceLineage chainFetch (chainAddr 0) 32).violations
          = [.decodeFailure (chainAddr 0)]
      ∧ (traceLineage chainFetch (chainAddr 0) 32).isValid = false
      ∧ (traceLineage_spec chainFetch (chainAddr 0) 32).totalDepth = 32
      ∧ (traceLineage_spec chainFetch (chainAddr 0) 32).lineage.length = 32
      ∧ (traceLineage_spec chainFetch (chainAddr 0) 32).violations
          = [.maxDepthExceeded 32]
      ∧ (traceLineage_spec chainFetch (chainAddr 0) 32).isValid = false := by
  refine ⟨?_, by decide, by decide, by decide, by decide, by decide, by decide, by decide⟩
  intro fetch modelPDA maxDepth
  have h := traceLoopWith_depth_le decodeModelAccountData fetch maxDepth modelPDA 0 [] []
  simpa [traceLineage, traceLineageWith] using h

/-- Claim C8 (code bug): on the synthetic two-link cycle A→B→A the shipped
    walk returns isValid = false but with a decode-failure violation only —
    no circular-reference violation is recorded, because decoding fails at
    the very first node — whereas the walk with the intended decoder does
    record the circular-reference violation, as the claim states. -/
theorem claim_C8_cycle_detection :
    (traceLineage cycFetch cycAddrA 32).violations = [.decodeFailure cycAddrA]
      ∧ Violation.circularReference ∉ (traceLineage cycFetch cycAddrA 32).violations
      ∧ (traceLineage cycFetch cycAddrA 32).isValid = false
      ∧ Violation.circularReference ∈ (traceLineage_spec cycFetch cycAddrA 32).violations
      ∧ (traceLineage_spec cycFetch cycAddrA 32).isValid = false :=
  ⟨by decide, by decide, by decide, by decide, by decide⟩

/-- Claim C9 (amended): whenever the minimum share amount is at least 1 —
    in particular at the shipped default 1000 — every ancestor share
    appended by calculateLineageRoyaltyDistribution is positive, and every
    transfer directive of the assembled subscription-purchase transaction
    carries a positive amount (platform and developer transfers are emitted
    only when positive, and each lineage transfer is at least the minimum
    share). -/
theorem claim_C9_positive_shares (totalLamports : Int) (trace : LineageTrace)
    (platformFeeBps minRoyaltyLamports : Int) (hmin : 1 ≤ minRoyaltyLamports) :
    ((calculateLineageRoyaltyDistribution totalLamports trace platformFeeBps
        minRoyaltyLamports).lineageRoyalties.all (fun r => decide (0 < r.amount))) = true
      ∧ ∀ (sha256 : Bytes → Bytes) (isOnCurve : Bytes → Bool) (programId : PubKey)
          (fetch : PubKey → Option Bytes) (treasuryPubkey : PubKey)
          (envPlatformFeeBps envMinRoyaltyLamports : Int)
          (envPlatformFeeWallet : Option PubKey) (s : SubscriptionData),
          1 ≤ s.minRoyaltyLamports.getD envMinRoyaltyLamports →
          optTxOk (createSubscriptionTransaction sha256 isOnCurve programId fetch
            treasuryPubkey envPlatformFeeBps envMinRoyaltyLamports envPlatformFeeWallet s)
            = true := by
  constructor
  · rw [List.all_eq_true]
    intro r hr
    simpa using calc_royalties_pos totalLamports trace platformFeeBps minRoyaltyLamports
      hmin r hr
  · intro sha256 isOnCurve programId fetch treasuryPubkey epf emin ew s hm
    unfold createSubscriptionTransaction
    cases hr : getSubscriptionReceiptPDA sha256 isOnCurve programId s.modelPubkey
        s.userWallet with
    | none => rfl
    | some receiptPDA =>
      simp only [optTxOk, txTransfersPositive, List.all_cons, Bool.and_eq_true]
      refine ⟨by trivial, ?_⟩
      have hp := subscriptionTransfers_positive
        (calculateLineageRoyaltyDistribution s.expectedPriceLamports
          (traceLineage fetch s.modelPubkey 32) (s.platformFeeBps.getD epf)
          (s.minRoyaltyLamports.getD emin))
        s.userWallet
        (match s.platformFeeWallet with
          | some w => some w
          | none => ew)
        s.modelDeveloperWallet
        (calc_royalties_pos s.expectedPriceLamports
          (traceLineage fetch s.modelPubkey 32) (s.platformFeeBps.getD epf)
          (s.minRoyaltyLamports.getD emin) hm)
      simpa [txTransfersPositive] using hp

/-- Claim C9 (witness): the positivity statements at the default fee and
    minimum-share configuration and a concrete subscription request. -/
theorem claim_C9_witness :
    ((1 : Int) ≤ 1000)
      ∧ ((calculateLineageRoyaltyDistribution 1000000000 exampleTrace1 500
          1000).lineageRoyalties.all (fun r => decide (0 < r.amount))) = true
      ∧ optTxOk (createSubscriptionTransaction constSha (fun _ => false)
          (List.replicate 32 1) (fun _ => none) (List.replicate 32 4) 500 1000 none
          exampleSub) = true :=
  ⟨by decide,
    (claim_C9_positive_shares 1000000000 exampleTrace1 500 1000 (by decide)).1,
    (claim_C9_positive_shares 1000000000 exampleTrace1 500 1000 (by decide)).2 constSha
      (fun _ => false) (List.replicate 32 1) (fun _ => none) (List.replicate 32 4) 500 1000
      none exampleSub (by decide)⟩

/-- Claim C9 (counterexample): with minShareAmount = 0 the loop appends a
    zero-amount ancestor share (total 0, platform fee 0, one lineage
    record), so the claim's universal "for every input" form is false. -/
theorem claim_C9_counterexample :
    (calculateLineageRoyaltyDistribution 0 exampleTrace1 0 0).lineageRoyalties.map
      (fun r => r.amount) = [0] := by decide

/-- Claim C10: decodeModelAccountData returns null on every input buffer —
    its success path constructs a PublicKey from the empty string, which
    always throws and is caught — and consequently every traceLineage call
    (maxDepth at least 1; both call sites use the default 32) returns an
    empty lineage, totalDepth 0, isValid false, and a single violation that
    is either account-not-found or decode-failure. -/
theorem claim_C10_decode_always_fails :
    (∀ b : Bytes, decodeModelAccountData b = none)
      ∧ ∀ (fetch : PubKey → Option Bytes) (modelPDA : PubKey) (maxDepth : Nat),
          1 ≤ maxDepth →
          (traceLineage fetch modelPDA maxDepth).lineage = []
            ∧ (traceLineage fetch modelPDA maxDepth).totalDepth = 0
            ∧ (traceLineage fetch modelPDA maxDepth).isValid = false
            ∧ ((traceLineage fetch modelPDA maxDepth).violations
                = [.accountNotFound modelPDA]
              ∨ (traceLineage fetch modelPDA maxDepth).violations
                = [.decodeFailure modelPDA]) := by
  refine ⟨decodeModelAccountData_eq_none, ?_⟩
  intro fetch modelPDA maxDepth h
  obtain ⟨d, rfl⟩ : ∃ d, maxDepth = d + 1 := ⟨maxDepth - 1, by omega⟩
  cases hf : fetch modelPDA with
  | none =>
    refine ⟨?_, ?_, ?_, Or.inl ?_⟩ <;>
      simp [traceLineage, traceLineageWith, traceLoopWith, hf]
  | some accountData =>
    refine ⟨?_, ?_, ?_, Or.inr ?_⟩ <;>
      simp [traceLineage, traceLineageWith, traceLoopWith, hf,
        decodeModelAccountData_eq_none]

/-- Claim C10 (witness): the trace shape at the default maxDepth 32 with an
    absent account. -/
theorem claim_C10_witness :
    1 ≤ 32
      ∧ ((traceLineage (fun _ => none) (List.replicate 32 9) 32).lineage = []
        ∧ (traceLineage (fun _ => none) (List.replicate 32 9) 32).totalDepth = 0
        ∧ (traceLineage (fun _ => none) (List.replicate 32 9) 32).isValid = false
        ∧ ((traceLineage (fun _ => none) (List.replicate 32 9) 32).violations
            = [.accountNotFound (List.replicate 32 9)]
          ∨ (traceLineage (fun _ => none) (List.replicate 32 9) 32).violations
            = [.decodeFailure (List.replicate 32 9)])) :=
  ⟨by decide, claim_C10_decode_always_fails.2 (fun _ => none) (List.replicate 32 9) 32
    (by decide)⟩

end Capstone
